import Mathlib

/-!
Verification of the localization-catalog generator `generate_translations.py`.

The script builds an `.xcstrings`-style catalog from a fixed in-memory
Translation Table.  Python dictionaries are embedded as association lists
`List (String × _)` together with an insertion operation `dictInsert` that has
exactly the semantics of Python dict assignment: an existing key is updated in
place (keeping its original position), a new key is appended at the end.
A Python dict always has distinct keys, so theorems about arbitrary tables
carry `Nodup` hypotheses on the key lists where the dict representation
requires it.
-/

namespace GenerateTranslations

/-- The innermost record of the catalog: a translation state plus a value. -/
structure StringUnit where
  state : String
  value : String
deriving DecidableEq, Repr

/-- A localization entry, wrapping a `StringUnit` (one string in one language). -/
structure LocalizationEntry where
  stringUnit : StringUnit
deriving DecidableEq, Repr

/-- A string entry: a mapping from language code to localization entry. -/
structure StringEntry where
  localizations : List (String × LocalizationEntry)
deriving DecidableEq, Repr

/-- The catalog document with its three top-level fields, exactly as built by
the script: `sourceLanguage`, `strings` and `version`. -/
structure Catalog where
  sourceLanguage : String
  strings : List (String × StringEntry)
  version : String
deriving DecidableEq, Repr

/-- One row of the Translation Table: language code to translated string. -/
abbrev TranslationRow := List (String × String)

/-- The Translation Table: source string to row. -/
abbrev TranslationTable := List (String × TranslationRow)

/-- Python dict lookup `d[k]` (as an `Option`), on the association-list model. -/
def alookup {α : Type} (k : String) : List (String × α) → Option α
  | [] => none
  | p :: rest => if p.1 = k then some p.2 else alookup k rest

/-- Python dict assignment `d[k] = v`: update in place when the key exists,
append otherwise. -/
def dictInsert {α : Type} (d : List (String × α)) (k : String) (v : α) :
    List (String × α) :=
  if k ∈ d.map Prod.fst then
    d.map fun p => if p.1 = k then (k, v) else p
  else
    d ++ [(k, v)]

/-- `create_localization_entry(lang_code, value)` from the script: a fixed
state `"translated"` together with the given value (the language code is
unused, as in the source). -/
def create_localization_entry (_lang_code : String) (value : String) :
    LocalizationEntry :=
  { stringUnit := { state := "translated", value := value } }

/-- `create_string_entry(english_text)` from the script, with the global
`translations` dict made an explicit parameter.  It starts the localizations
dict with the `"en"` unit holding the source text, then inserts one unit per
language of the string's row (when the string has a row). -/
def create_string_entry (translations : TranslationTable)
    (english_text : String) : StringEntry :=
  let localizations : List (String × LocalizationEntry) :=
    [("en", create_localization_entry "en" english_text)]
  let localizations :=
    match alookup english_text translations with
    | some row =>
        row.foldl
          (fun locs q => dictInsert locs q.1 (create_localization_entry q.1 q.2))
          localizations
    | none => localizations
  { localizations := localizations }

/-- The catalog built by the script: fixed `sourceLanguage` and `version`, and
one string entry inserted per key of the Translation Table, in table order. -/
def catalog (translations : TranslationTable) : Catalog :=
  { sourceLanguage := "en"
    strings :=
      (translations.map Prod.fst).foldl
        (fun d k => dictInsert d k (create_string_entry translations k)) []
    version := "1.0" }

/-- The Translation Table literal of the script: 39 English source strings,
each with translations in the nine other languages. -/
def translations : TranslationTable := [
  ("Cancel",
    [("de", "Abbrechen"), ("es", "Cancelar"), ("fr", "Annuler"), ("zh-Hans", "取消"), ("pt", "Cancelar"), ("ja", "キャンセル"), ("ru", "Отменить"), ("ko", "취소"), ("it", "Annulla")]),
  ("Cancel scan",
    [("de", "Scan abbrechen"), ("es", "Cancelar escaneo"), ("fr", "Annuler l\x27analyse"), ("zh-Hans", "取消扫描"), ("pt", "Cancelar verificação"), ("ja", "スキャンをキャンセル"), ("ru", "Отменить сканирование"), ("ko", "스캔 취소"), ("it", "Annulla scansione")]),
  ("Clear filename filter",
    [("de", "Dateinamenfilter löschen"), ("es", "Borrar filtro de nombre"), ("fr", "Effacer le filtre de nom"), ("zh-Hans", "清除文件名筛选"), ("pt", "Limpar filtro de nome"), ("ja", "ファイル名フィルターをクリア"), ("ru", "Очистить фильтр имени"), ("ko", "파일 이름 필터 지우기"), ("it", "Cancella filtro nome")]),
  ("Click \"Scan Folder\" to analyze disk usage",
    [("de", "Klicken Sie auf \"Ordner scannen\", um die Festplattennutzung zu analysieren"), ("es", "Haga clic en \"Escanear carpeta\" para analizar el uso del disco"), ("fr", "Cliquez sur \"Analyser le dossier\" pour analyser l\x27utilisation du disque"), ("zh-Hans", "点击\"扫描文件夹\"以分析磁盘使用情况"), ("pt", "Clique em \"Verificar pasta\" para analisar o uso do disco"), ("ja", "「フォルダーをスキャン」をクリックしてディスク使用量を分析"), ("ru", "Нажмите \"Сканировать папку\" для анализа использования диска"), ("ko", "\"폴더 스캔\"을 클릭하여 디스크 사용량 분석"), ("it", "Fai clic su \"Scansiona cartella\" per analizzare l\x27uso del disco")]),
  ("Delete",
    [("de", "Löschen"), ("es", "Eliminar"), ("fr", "Supprimer"), ("zh-Hans", "删除"), ("pt", "Excluir"), ("ja", "削除"), ("ru", "Удалить"), ("ko", "삭제"), ("it", "Elimina")]),
  ("Enter text or wildcards to filter files by name. Use asterisk for any characters.",
    [("de", "Geben Sie Text oder Platzhalter ein, um Dateien nach Namen zu filtern. Verwenden Sie Sternchen für beliebige Zeichen."), ("es", "Ingrese texto o comodines para filtrar archivos por nombre. Use asterisco para cualquier carácter."), ("fr", "Saisissez du texte ou des caractères génériques pour filtrer les fichiers par nom. Utilisez l\x27astérisque pour n\x27importe quel caractère."), ("zh-Hans", "输入文本或通配符以按名称筛选文件。使用星号表示任意字符。"), ("pt", "Digite texto ou curingas para filtrar arquivos por nome. Use asterisco para qualquer caractere."), ("ja", "テキストまたはワイルドカードを入力して、名前でファイルをフィルター。任意の文字にはアスタリスクを使用。"), ("ru", "Введите текст или подстановочные знаки для фильтрации файлов по имени. Используйте звездочку для любых символов."), ("ko", "이름으로 파일을 필터링하려면 텍스트 또는 와일드카드를 입력하세요. 모든 문자에 별표를 사용하세요."), ("it", "Inserisci testo o caratteri jolly per filtrare i file per nome. Usa l\x27asterisco per qualsiasi carattere.")]),
  ("Filename filter",
    [("de", "Dateinamenfilter"), ("es", "Filtro de nombre"), ("fr", "Filtre de nom"), ("zh-Hans", "文件名筛选"), ("pt", "Filtro de nome"), ("ja", "ファイル名フィルター"), ("ru", "Фильтр имени"), ("ko", "파일 이름 필터"), ("it", "Filtro nome file")]),
  ("Filter by name (*.ts, node_modules, etc.)",
    [("de", "Nach Namen filtern (*.ts, node_modules, usw.)"), ("es", "Filtrar por nombre (*.ts, node_modules, etc.)"), ("fr", "Filtrer par nom (*.ts, node_modules, etc.)"), ("zh-Hans", "按名称筛选（*.ts、node_modules 等）"), ("pt", "Filtrar por nome (*.ts, node_modules, etc.)"), ("ja", "名前でフィルター（*.ts、node_modules など）"), ("ru", "Фильтр по имени (*.ts, node_modules и т.д.)"), ("ko", "이름으로 필터링 (*.ts, node_modules 등)"), ("it", "Filtra per nome (*.ts, node_modules, ecc.)")]),
  ("Hidden",
    [("de", "Ausgeblendet"), ("es", "Oculto"), ("fr", "Masqué"), ("zh-Hans", "已隐藏"), ("pt", "Oculto"), ("ja", "非表示"), ("ru", "Скрыто"), ("ko", "숨김"), ("it", "Nascosto")]),
  ("Moves the selected item to trash. Requires confirmation.",
    [("de", "Verschiebt das ausgewählte Element in den Papierkorb. Erfordert Bestätigung."), ("es", "Mueve el elemento seleccionado a la papelera. Requiere confirmación."), ("fr", "Déplace l\x27élément sélectionné vers la corbeille. Nécessite une confirmation."), ("zh-Hans", "将所选项目移至废纸篓。需要确认。"), ("pt", "Move o item selecionado para a lixeira. Requer confirmação."), ("ja", "選択した項目をゴミ箱に移動します。確認が必要です。"), ("ru", "Перемещает выбранный элемент в корзину. Требует подтверждения."), ("ko", "선택한 항목을 휴지통으로 이동합니다. 확인이 필요합니다."), ("it", "Sposta l\x27elemento selezionato nel cestino. Richiede conferma.")]),
  ("Name:",
    [("de", "Name:"), ("es", "Nombre:"), ("fr", "Nom:"), ("zh-Hans", "名称："), ("pt", "Nome:"), ("ja", "名前："), ("ru", "Имя:"), ("ko", "이름:"), ("it", "Nome:")]),
  ("No file or folder selected",
    [("de", "Keine Datei oder Ordner ausgewählt"), ("es", "Ningún archivo o carpeta seleccionado"), ("fr", "Aucun fichier ou dossier sélectionné"), ("zh-Hans", "未选择文件或文件夹"), ("pt", "Nenhum arquivo ou pasta selecionado"), ("ja", "ファイルまたはフォルダーが選択されていません"), ("ru", "Файл или папка не выбраны"), ("ko", "선택된 파일 또는 폴더 없음"), ("it", "Nessun file o cartella selezionato")]),
  ("No filter",
    [("de", "Kein Filter"), ("es", "Sin filtro"), ("fr", "Aucun filtre"), ("zh-Hans", "无筛选"), ("pt", "Sem filtro"), ("ja", "フィルターなし"), ("ru", "Без фильтра"), ("ko", "필터 없음"), ("it", "Nessun filtro")]),
  ("No selection",
    [("de", "Keine Auswahl"), ("es", "Sin selección"), ("fr", "Aucune sélection"), ("zh-Hans", "未选择"), ("pt", "Nenhuma seleção"), ("ja", "選択なし"), ("ru", "Не выбрано"), ("ko", "선택 없음"), ("it", "Nessuna selezione")]),
  ("Not selected",
    [("de", "Nicht ausgewählt"), ("es", "No seleccionado"), ("fr", "Non sélectionné"), ("zh-Hans", "未选择"), ("pt", "Não selecionado"), ("ja", "未選択"), ("ru", "Не выбрано"), ("ko", "선택되지 않음"), ("it", "Non selezionato")]),
  ("Open in Application",
    [("de", "In Programm öffnen"), ("es", "Abrir en aplicación"), ("fr", "Ouvrir dans l\x27application"), ("zh-Hans", "在应用程序中打开"), ("pt", "Abrir no aplicativo"), ("ja", "アプリケーションで開く"), ("ru", "Открыть в приложении"), ("ko", "응용 프로그램에서 열기"), ("it", "Apri nell\x27applicazione")]),
  ("Opens a folder picker to select a folder to analyze",
    [("de", "Öffnet eine Ordnerauswahl, um einen zu analysierenden Ordner auszuwählen"), ("es", "Abre un selector de carpetas para seleccionar una carpeta para analizar"), ("fr", "Ouvre un sélecteur de dossier pour choisir un dossier à analyser"), ("zh-Hans", "打开文件夹选择器以选择要分析的文件夹"), ("pt", "Abre um seletor de pastas para selecionar uma pasta para analisar"), ("ja", "分析するフォルダーを選択するためのフォルダーピッカーを開きます"), ("ru", "Открывает средство выбора папки для анализа"), ("ko", "분석할 폴더를 선택하기 위한 폴더 선택기를 엽니다"), ("it", "Apre un selettore di cartelle per scegliere una cartella da analizzare")]),
  ("Opens the selected file in its default application",
    [("de", "Öffnet die ausgewählte Datei in ihrem Standardprogramm"), ("es", "Abre el archivo seleccionado en su aplicación predeterminada"), ("fr", "Ouvre le fichier sélectionné dans son application par défaut"), ("zh-Hans", "在默认应用程序中打开所选文件"), ("pt", "Abre o arquivo selecionado em seu aplicativo padrão"), ("ja", "選択したファイルをデフォルトのアプリケーションで開きます"), ("ru", "Открывает выбранный файл в приложении по умолчанию"), ("ko", "기본 응용 프로그램에서 선택한 파일을 엽니다"), ("it", "Apre il file selezionato nell\x27applicazione predefinita")]),
  ("Opens this folder in the treemap",
    [("de", "Öffnet diesen Ordner in der Baumkarte"), ("es", "Abre esta carpeta en el mapa de árbol"), ("fr", "Ouvre ce dossier dans la carte arborescente"), ("zh-Hans", "在树状图中打开此文件夹"), ("pt", "Abre esta pasta no mapa de árvore"), ("ja", "ツリーマップでこのフォルダーを開きます"), ("ru", "Открывает эту папку в древовидной карте"), ("ko", "트리맵에서 이 폴더를 엽니다"), ("it", "Apre questa cartella nella mappa ad albero")]),
  ("Ready to Scan",
    [("de", "Bereit zum Scannen"), ("es", "Listo para escanear"), ("fr", "Prêt à analyser"), ("zh-Hans", "准备扫描"), ("pt", "Pronto para verificar"), ("ja", "スキャン準備完了"), ("ru", "Готов к сканированию"), ("ko", "스캔 준비 완료"), ("it", "Pronto per la scansione")]),
  ("Removes the filename filter to show all files",
    [("de", "Entfernt den Dateinamenfilter, um alle Dateien anzuzeigen"), ("es", "Elimina el filtro de nombre para mostrar todos los archivos"), ("fr", "Supprime le filtre de nom pour afficher tous les fichiers"), ("zh-Hans", "删除文件名筛选以显示所有文件"), ("pt", "Remove o filtro de nome para mostrar todos os arquivos"), ("ja", "ファイル名フィルターを削除してすべてのファイルを表示"), ("ru", "Удаляет фильтр имени для отображения всех файлов"), ("ko", "파일 이름 필터를 제거하여 모든 파일 표시"), ("it", "Rimuove il filtro nome per mostrare tutti i file")]),
  ("Resets the scan state so you can select a new folder",
    [("de", "Setzt den Scanstatus zurück, damit Sie einen neuen Ordner auswählen können"), ("es", "Restablece el estado del escaneo para que pueda seleccionar una nueva carpeta"), ("fr", "Réinitialise l\x27état de l\x27analyse afin que vous puissiez sélectionner un nouveau dossier"), ("zh-Hans", "重置扫描状态，以便您可以选择新文件夹"), ("pt", "Redefine o estado de verificação para que você possa selecionar uma nova pasta"), ("ja", "スキャン状態をリセットして新しいフォルダーを選択できるようにします"), ("ru", "Сбрасывает состояние сканирования, чтобы вы могли выбрать новую папку"), ("ko", "스캔 상태를 재설정하여 새 폴더를 선택할 수 있습니다"), ("it", "Ripristina lo stato di scansione in modo da poter selezionare una nuova cartella")]),
  ("Reveals the selected item in Finder",
    [("de", "Zeigt das ausgewählte Element im Finder an"), ("es", "Revela el elemento seleccionado en Finder"), ("fr", "Révèle l\x27élément sélectionné dans le Finder"), ("zh-Hans", "在访达中显示所选项目"), ("pt", "Revela o item selecionado no Finder"), ("ja", "Finderで選択した項目を表示"), ("ru", "Показывает выбранный элемент в Finder"), ("ko", "Finder에서 선택한 항목 표시"), ("it", "Rivela l\x27elemento selezionato nel Finder")]),
  ("Scan",
    [("de", "Scannen"), ("es", "Escanear"), ("fr", "Analyser"), ("zh-Hans", "扫描"), ("pt", "Verificar"), ("ja", "スキャン"), ("ru", "Сканировать"), ("ko", "스캔"), ("it", "Scansiona")]),
  ("Scan Failed",
    [("de", "Scan fehlgeschlagen"), ("es", "Escaneo fallido"), ("fr", "Échec de l\x27analyse"), ("zh-Hans", "扫描失败"), ("pt", "Verificação falhou"), ("ja", "スキャン失敗"), ("ru", "Сканирование не удалось"), ("ko", "스캔 실패"), ("it", "Scansione fallita")]),
  ("Scan Folder",
    [("de", "Ordner scannen"), ("es", "Escanear carpeta"), ("fr", "Analyser le dossier"), ("zh-Hans", "扫描文件夹"), ("pt", "Verificar pasta"), ("ja", "フォルダーをスキャン"), ("ru", "Сканировать папку"), ("ko", "폴더 스캔"), ("it", "Scansiona cartella")]),
  ("Scan folder",
    [("de", "Ordner scannen"), ("es", "Escanear carpeta"), ("fr", "Analyser le dossier"), ("zh-Hans", "扫描文件夹"), ("pt", "Verificar pasta"), ("ja", "フォルダーをスキャン"), ("ru", "Сканировать папку"), ("ko", "폴더 스캔"), ("it", "Scansiona cartella")]),
  ("Scanning in progress",
    [("de", "Scan läuft"), ("es", "Escaneo en progreso"), ("fr", "Analyse en cours"), ("zh-Hans", "正在扫描"), ("pt", "Verificação em andamento"), ("ja", "スキャン中"), ("ru", "Выполняется сканирование"), ("ko", "스캔 진행 중"), ("it", "Scansione in corso")]),
  ("Scanning...",
    [("de", "Scannen..."), ("es", "Escaneando..."), ("fr", "Analyse..."), ("zh-Hans", "正在扫描..."), ("pt", "Verificando..."), ("ja", "スキャン中..."), ("ru", "Сканирование..."), ("ko", "스캔 중..."), ("it", "Scansione...")]),
  ("Select a folder to analyze",
    [("de", "Wählen Sie einen Ordner zum Analysieren aus"), ("es", "Seleccione una carpeta para analizar"), ("fr", "Sélectionnez un dossier à analyser"), ("zh-Hans", "选择要分析的文件夹"), ("pt", "Selecione uma pasta para analisar"), ("ja", "分析するフォルダーを選択"), ("ru", "Выберите папку для анализа"), ("ko", "분석할 폴더 선택"), ("it", "Seleziona una cartella da analizzare")]),
  ("Selected",
    [("de", "Ausgewählt"), ("es", "Seleccionado"), ("fr", "Sélectionné"), ("zh-Hans", "已选择"), ("pt", "Selecionado"), ("ja", "選択済み"), ("ru", "Выбрано"), ("ko", "선택됨"), ("it", "Selezionato")]),
  ("Show in Finder",
    [("de", "Im Finder anzeigen"), ("es", "Mostrar en Finder"), ("fr", "Afficher dans le Finder"), ("zh-Hans", "在访达中显示"), ("pt", "Mostrar no Finder"), ("ja", "Finderで表示"), ("ru", "Показать в Finder"), ("ko", "Finder에서 보기"), ("it", "Mostra nel Finder")]),
  ("Shown",
    [("de", "Angezeigt"), ("es", "Mostrado"), ("fr", "Affiché"), ("zh-Hans", "已显示"), ("pt", "Exibido"), ("ja", "表示中"), ("ru", "Показано"), ("ko", "표시됨"), ("it", "Mostrato")]),
  ("Size:",
    [("de", "Größe:"), ("es", "Tamaño:"), ("fr", "Taille:"), ("zh-Hans", "大小："), ("pt", "Tamanho:"), ("ja", "サイズ："), ("ru", "Размер:"), ("ko", "크기:"), ("it", "Dimensione:")]),
  ("Stops the current folder scan",
    [("de", "Stoppt den aktuellen Ordnerscan"), ("es", "Detiene el escaneo de carpeta actual"), ("fr", "Arrête l\x27analyse de dossier en cours"), ("zh-Hans", "停止当前文件夹扫描"), ("pt", "Para a verificação de pasta atual"), ("ja", "現在のフォルダースキャンを停止"), ("ru", "Останавливает текущее сканирование папки"), ("ko", "현재 폴더 스캔 중지"), ("it", "Ferma la scansione della cartella corrente")]),
  ("Try Again",
    [("de", "Erneut versuchen"), ("es", "Intentar de nuevo"), ("fr", "Réessayer"), ("zh-Hans", "重试"), ("pt", "Tentar novamente"), ("ja", "再試行"), ("ru", "Повторить попытку"), ("ko", "다시 시도"), ("it", "Riprova")]),
  ("Try scanning again",
    [("de", "Erneut scannen"), ("es", "Intentar escanear nuevamente"), ("fr", "Essayez d\x27analyser à nouveau"), ("zh-Hans", "重新扫描"), ("pt", "Tente verificar novamente"), ("ja", "再度スキャンしてみる"), ("ru", "Попробуйте сканирование снова"), ("ko", "다시 스캔 시도"), ("it", "Prova a scansionare di nuovo")]),
  ("Type:",
    [("de", "Typ:"), ("es", "Tipo:"), ("fr", "Type:"), ("zh-Hans", "类型："), ("pt", "Tipo:"), ("ja", "タイプ："), ("ru", "Тип:"), ("ko", "유형:"), ("it", "Tipo:")]),
  ("Wildcards: * (any)",
    [("de", "Platzhalter: * (beliebig)"), ("es", "Comodines: * (cualquiera)"), ("fr", "Caractères génériques: * (quelconque)"), ("zh-Hans", "通配符：*（任意）"), ("pt", "Curingas: * (qualquer)"), ("ja", "ワイルドカード：*（任意）"), ("ru", "Подстановочные знаки: * (любые)"), ("ko", "와일드카드: * (모든)"), ("it", "Caratteri jolly: * (qualsiasi)")])
]

/-- Re-derive a Translation Table from a catalog document, as the round-trip
property describes it: for each entry, drop the source-language ("en") unit
and keep each remaining language code's stringUnit value. -/
def deriveTable (c : Catalog) : TranslationTable :=
  c.strings.map fun p =>
    (p.1,
      (p.2.localizations.filter fun q => q.1 != "en").map
        fun q => (q.1, q.2.stringUnit.value))

/-- Lowercase hexadecimal digit, as used by JSON unicode escapes. -/
def hexDigit (n : Nat) : Char :=
  if n < 10 then Char.ofNat (48 + n) else Char.ofNat (87 + n)

/-- Escape one character the way json.dump with ensure_ascii=False does:
quote, backslash and control characters are escaped, everything else (all
non-ASCII included) is kept literally. -/
def jsonEscapeChar (c : Char) : String :=
  if c = '"' then "\\\""
  else if c = '\\' then "\\\\"
  else if c = '\n' then "\\n"
  else if c = '\t' then "\\t"
  else if c = '\r' then "\\r"
  else if c = Char.ofNat 8 then "\\b"
  else if c = Char.ofNat 12 then "\\f"
  else if c.toNat < 32 then
    String.mk ['\\', 'u', '0', '0', hexDigit (c.toNat / 16), hexDigit (c.toNat % 16)]
  else String.singleton c

/-- Escape a whole string for inclusion in a JSON document. -/
def jsonEscape (s : String) : String :=
  String.join (s.toList.map jsonEscapeChar)

/-- A JSON string literal. -/
def jsonStr (s : String) : String := "\"" ++ jsonEscape s ++ "\""

/-- An indentation of n spaces. -/
def indentStr (n : Nat) : String := String.mk (List.replicate n ' ')

/-- Render a JSON object at indentation level n from already-rendered item
values, mirroring json.dump with indent=2 (items separated by ",\n", keys
from values by ": ", the empty object rendered with no inner newline). -/
def renderObj (n : Nat) (items : List (String × String)) : String :=
  if items.isEmpty then "\x7b\x7d"
  else
    "\x7b\n" ++
      String.intercalate ",\n"
        (items.map fun p => indentStr (n + 2) ++ jsonStr p.1 ++ ": " ++ p.2) ++
      "\n" ++ indentStr n ++ "\x7d"

/-- Serialization of a string unit: the "state" field then the "value" field,
in the dict insertion order of `create_localization_entry`. -/
def renderStringUnit (n : Nat) (u : StringUnit) : String :=
  renderObj n [("state", jsonStr u.state), ("value", jsonStr u.value)]

/-- Serialization of a localization entry: its single "stringUnit" field. -/
def renderLocalizationEntry (n : Nat) (e : LocalizationEntry) : String :=
  renderObj n [("stringUnit", renderStringUnit (n + 2) e.stringUnit)]

/-- Serialization of a string entry: its single "localizations" field. -/
def renderStringEntry (n : Nat) (e : StringEntry) : String :=
  renderObj n
    [("localizations",
      renderObj (n + 2)
        (e.localizations.map fun p => (p.1, renderLocalizationEntry (n + 4) p.2)))]

/-- Serialization of the whole catalog document, byte for byte as
json.dump(catalog, f, ensure_ascii=False, indent=2) emits it. -/
def renderCatalog (c : Catalog) : String :=
  renderObj 0
    [("sourceLanguage", jsonStr c.sourceLanguage),
     ("strings",
       renderObj 2 (c.strings.map fun p => (p.1, renderStringEntry 4 p.2))),
     ("version", jsonStr c.version)]

/-- The full generator run: build the catalog from a table and serialize it
to the byte string written to the output file. -/
def generate (t : TranslationTable) : String := renderCatalog (catalog t)

/-- The concrete scenario table of the spec:
Cancel translated to German and French only. -/
def sampleTable : TranslationTable :=
  [("Cancel", [("de", "Abbrechen"), ("fr", "Annuler")])]

/-- A table whose row itself contains the source-language code "en",
exercising the dict-overwrite behavior of the builder. -/
def enRowTable : TranslationTable := [("Hello", [("en", "Bonjour")])]

/-! Association-list lemmas about `alookup` and `dictInsert`. -/

/-- Lookup of an absent key yields `none`. -/
theorem alookup_eq_none_of_not_mem {α : Type} {k : String} :
    ∀ {d : List (String × α)}, k ∉ d.map Prod.fst → alookup k d = none := by
  intro d
  induction d with
  | nil => intro _; rfl
  | cons p rest ih =>
    intro h
    simp only [List.map_cons, List.mem_cons] at h
    push_neg at h
    rw [alookup, if_neg (fun he => h.1 he.symm)]
    exact ih h.2

/-- With distinct keys, lookup of a member's key yields its value. -/
theorem alookup_self_of_nodup {α : Type} :
    ∀ {d : List (String × α)}, (d.map Prod.fst).Nodup →
      ∀ {p : String × α}, p ∈ d → alookup p.1 d = some p.2 := by
  intro d
  induction d with
  | nil => intro _ p hp; cases hp
  | cons q rest ih =>
    intro hnd p hp
    simp only [List.map_cons, List.nodup_cons] at hnd
    rcases List.mem_cons.mp hp with rfl | hmem
    · simp [alookup]
    · have hne : q.1 ≠ p.1 := by
        intro he
        exact hnd.1 (he ▸ List.mem_map_of_mem Prod.fst hmem)
      rw [alookup, if_neg hne]
      exact ih hnd.2 hmem

/-- Updating a present key in place makes lookup of that key return the new
value. -/
theorem alookup_map_update {α : Type} :
    ∀ {d : List (String × α)} {k : String} {v : α}, k ∈ d.map Prod.fst →
      alookup k (d.map fun p => if p.1 = k then (k, v) else p) = some v := by
  intro d
  induction d with
  | nil => intro k v h; cases h
  | cons q rest ih =>
    intro k v h
    by_cases hq : q.1 = k
    · simp [alookup, hq]
    · simp only [List.map_cons, if_neg hq]
      rw [alookup, if_neg hq]
      apply ih
      simp only [List.map_cons, List.mem_cons] at h
      rcases h with h | h
      · exact absurd h.symm hq
      · exact h

/-- Appending a fresh key makes lookup of that key return its value. -/
theorem alookup_append_single {α : Type} :
    ∀ {d : List (String × α)} {k : String} {v : α}, k ∉ d.map Prod.fst →
      alookup k (d ++ [(k, v)]) = some v := by
  intro d
  induction d with
  | nil => intro k v _; simp [alookup]
  | cons q rest ih =>
    intro k v h
    simp only [List.map_cons, List.mem_cons] at h
    push_neg at h
    rw [List.cons_append, alookup, if_neg (fun he => h.1 he.symm)]
    exact ih h.2

/-- Python dict assignment then lookup of the same key yields the assigned
value, whether the key was present or not. -/
theorem alookup_dictInsert_self {α : Type} (d : List (String × α)) (k : String)
    (v : α) : alookup k (dictInsert d k v) = some v := by
  unfold dictInsert
  by_cases hk : k ∈ d.map Prod.fst
  · rw [if_pos hk]
    exact alookup_map_update hk
  · rw [if_neg hk]
    exact alookup_append_single hk

/-- In-place update of another key does not change a lookup. -/
theorem alookup_map_update_ne {α : Type} {k k' : String} (v : α) (hne : k ≠ k') :
    ∀ (d : List (String × α)),
      alookup k (d.map fun p => if p.1 = k' then (k', v) else p) = alookup k d := by
  intro d
  induction d with
  | nil => rfl
  | cons q rest ih =>
    by_cases hq : q.1 = k'
    · simp only [List.map_cons, if_pos hq]
      rw [alookup, alookup, if_neg (fun he : k' = k => hne he.symm),
        if_neg (fun he : q.1 = k => hne (he.symm.trans hq))]
      exact ih
    · simp only [List.map_cons, if_neg hq]
      rw [alookup, alookup]
      by_cases hqk : q.1 = k
      · rw [if_pos hqk, if_pos hqk]
      · rw [if_neg hqk, if_neg hqk]
        exact ih

/-- Appending an entry for another key does not change a lookup. -/
theorem alookup_append_single_ne {α : Type} {k k' : String} (v : α)
    (hne : k ≠ k') :
    ∀ (d : List (String × α)), alookup k (d ++ [(k', v)]) = alookup k d := by
  intro d
  induction d with
  | nil =>
    simp [alookup, Ne.symm hne]
  | cons q rest ih =>
    rw [List.cons_append, alookup, alookup]
    by_cases hqk : q.1 = k
    · rw [if_pos hqk, if_pos hqk]
    · rw [if_neg hqk, if_neg hqk]
      exact ih

/-- Python dict assignment of another key does not change a lookup. -/
theorem alookup_dictInsert_ne {α : Type} (d : List (String × α)) {k k' : String}
    (v : α) (hne : k ≠ k') : alookup k (dictInsert d k' v) = alookup k d := by
  unfold dictInsert
  by_cases hk : k' ∈ d.map Prod.fst
  · rw [if_pos hk]
    exact alookup_map_update_ne v hne d
  · rw [if_neg hk]
    exact alookup_append_single_ne v hne d

/-- Folding dict assignments of pairwise-distinct keys, all fresh for the
accumulator, appends the pairs in order.  This is the shape of both dict-build
loops of the script. -/
theorem foldl_dictInsert_eq_append {α : Type} :
    ∀ (ps : List (String × α)) (acc : List (String × α)),
      (ps.map Prod.fst).Nodup →
      (∀ k ∈ ps.map Prod.fst, k ∉ acc.map Prod.fst) →
      ps.foldl (fun d q => dictInsert d q.1 q.2) acc = acc ++ ps := by
  intro ps
  induction ps with
  | nil => intro acc _ _; simp
  | cons p rest ih =>
    intro acc hnd hdisj
    simp only [List.map_cons, List.nodup_cons] at hnd
    have hp : p.1 ∉ acc.map Prod.fst := hdisj p.1 (by simp)
    have hins : dictInsert acc p.1 p.2 = acc ++ [p] := by
      unfold dictInsert
      rw [if_neg hp]
    have hdisj' : ∀ k ∈ rest.map Prod.fst, k ∉ (acc ++ [p]).map Prod.fst := by
      intro k hk
      simp only [List.map_append, List.mem_append, List.map_cons,
        List.map_nil, List.mem_cons, List.not_mem_nil]
      rintro (h | h)
      · exact hdisj k (by simp [hk]) h
      · rcases h with h | h
        · exact hnd.1 (h ▸ hk)
        · cases h
    rw [List.foldl_cons, hins, ih (acc ++ [p]) hnd.2 hdisj']
    simp

/-- Folding dict assignments over pairs whose keys do not include `k` leaves
the lookup of `k` unchanged. -/
theorem alookup_foldl_dictInsert_of_none {α : Type} :
    ∀ (ps : List (String × α)) (acc : List (String × α)) (k : String),
      alookup k ps = none →
      alookup k (ps.foldl (fun d q => dictInsert d q.1 q.2) acc) =
        alookup k acc := by
  intro ps
  induction ps with
  | nil => intro acc k _; rfl
  | cons p rest ih =>
    intro acc k h
    rw [alookup] at h
    by_cases hp : p.1 = k
    · rw [if_pos hp] at h
      cases h
    · rw [if_neg hp] at h
      rw [List.foldl_cons, ih _ _ h,
        alookup_dictInsert_ne _ _ (fun he => hp he.symm)]

/-- Folding dict assignments over pairs with pairwise-distinct keys: a key
present among the pairs ends up looking up to its (unique) pair's value,
whatever the accumulator held before.  This is the overwrite behavior of the
builder's localizations dict. -/
theorem alookup_foldl_dictInsert_of_mem {α : Type} :
    ∀ (ps : List (String × α)) (acc : List (String × α)) (k : String) (v : α),
      (ps.map Prod.fst).Nodup → alookup k ps = some v →
      alookup k (ps.foldl (fun d q => dictInsert d q.1 q.2) acc) = some v := by
  intro ps
  induction ps with
  | nil => intro acc k v _ h; cases h
  | cons p rest ih =>
    intro acc k v hnd h
    simp only [List.map_cons, List.nodup_cons] at hnd
    rw [alookup] at h
    rw [List.foldl_cons]
    by_cases hp : p.1 = k
    · rw [if_pos hp] at h
      injection h with h
      subst h
      have hrest : alookup k rest = none :=
        alookup_eq_none_of_not_mem (hp ▸ hnd.1)
      rw [alookup_foldl_dictInsert_of_none rest _ k hrest, hp,
        alookup_dictInsert_self]
    · rw [if_neg hp] at h
      exact ih _ k v hnd.2 h

/-- Lookup in a key-preserving value map. -/
theorem alookup_map_value {α β : Type} (f : String → α → β) (k : String) :
    ∀ (row : List (String × α)),
      alookup k (row.map fun q => (q.1, f q.1 q.2)) =
        Option.map (f k) (alookup k row) := by
  intro row
  induction row with
  | nil => rfl
  | cons q rest ih =>
    by_cases hq : q.1 = k
    · subst hq
      simp [alookup]
    · simp only [List.map_cons]
      rw [alookup, alookup, if_neg hq, if_neg hq]
      exact ih

/-- A fold of dict assignments whose values are computed from the pair equals
the same fold over the value-mapped pairs. -/
theorem foldl_dictInsert_map {α β : Type} (f : String → β → α) :
    ∀ (row : List (String × β)) (acc : List (String × α)),
      row.foldl (fun d q => dictInsert d q.1 (f q.1 q.2)) acc =
        (row.map fun q => (q.1, f q.1 q.2)).foldl
          (fun d q => dictInsert d q.1 q.2) acc := by
  intro row
  induction row with
  | nil => intro acc; rfl
  | cons q rest ih =>
    intro acc
    simp only [List.foldl_cons, List.map_cons]
    exact ih _

/-- A fold of dict assignments over the keys of an association list equals the
same fold over the pairs themselves, with the value computed from the key. -/
theorem foldl_keys_map {α β : Type} (g : String → α) :
    ∀ (t : List (String × β)) (acc : List (String × α)),
      (t.map Prod.fst).foldl (fun d k => dictInsert d k (g k)) acc =
        t.foldl (fun d p => dictInsert d p.1 (g p.1)) acc := by
  intro t
  induction t with
  | nil => intro acc; rfl
  | cons p rest ih =>
    intro acc
    simp only [List.map_cons, List.foldl_cons]
    exact ih _

/-! Structural lemmas about the builder. -/

/-- Structure of the localizations dict built by `create_string_entry` when
the string's row exists, has pairwise-distinct language codes, and does not
itself contain "en": the source-language unit comes first, then one unit per
row language, in row order. -/
theorem localizations_eq (t : TranslationTable) (S : String)
    (row : TranslationRow) (hrow : alookup S t = some row)
    (hnd : (row.map Prod.fst).Nodup) (hen : "en" ∉ row.map Prod.fst) :
    (create_string_entry t S).localizations =
      ("en", create_localization_entry "en" S) ::
        (row.map fun q => (q.1, create_localization_entry q.1 q.2)) := by
  unfold create_string_entry
  simp only [hrow]
  calc row.foldl
        (fun locs q => dictInsert locs q.1 (create_localization_entry q.1 q.2))
        [("en", create_localization_entry "en" S)]
      = (row.map fun q => (q.1, create_localization_entry q.1 q.2)).foldl
          (fun d q => dictInsert d q.1 q.2)
          [("en", create_localization_entry "en" S)] :=
        foldl_dictInsert_map _ row _
    _ = [("en", create_localization_entry "en" S)] ++
          (row.map fun q => (q.1, create_localization_entry q.1 q.2)) := by
        apply foldl_dictInsert_eq_append
        · simpa using hnd
        · intro k hk
          simp only [List.map_map] at hk
          simp only [List.map_cons, List.map_nil, List.mem_singleton]
          intro hke
          apply hen
          subst hke
          simpa using hk
    _ = ("en", create_localization_entry "en" S) ::
          (row.map fun q => (q.1, create_localization_entry q.1 q.2)) := by
        simp

/-- Structure of the localizations dict when the string has no table row:
only the source-language unit. -/
theorem localizations_eq_none (t : TranslationTable) (S : String)
    (hrow : alookup S t = none) :
    (create_string_entry t S).localizations =
      [("en", create_localization_entry "en" S)] := by
  unfold create_string_entry
  simp only [hrow]

/-- With distinct table keys, the strings dict of the built catalog is the
table with each key mapped to its string entry, in table order. -/
theorem catalog_strings_eq (t : TranslationTable)
    (hnd : (t.map Prod.fst).Nodup) :
    (catalog t).strings = t.map fun p => (p.1, create_string_entry t p.1) := by
  calc (catalog t).strings
      = t.foldl (fun d p => dictInsert d p.1 (create_string_entry t p.1)) [] :=
        foldl_keys_map _ t []
    _ = (t.map fun p => (p.1, create_string_entry t p.1)).foldl
          (fun d q => dictInsert d q.1 q.2) [] :=
        foldl_dictInsert_map (fun k _ => create_string_entry t k) t []
    _ = [] ++ (t.map fun p => (p.1, create_string_entry t p.1)) := by
        apply foldl_dictInsert_eq_append
        · simpa using hnd
        · intro k _ hk
          cases hk
    _ = t.map fun p => (p.1, create_string_entry t p.1) := by simp

/-- With distinct table keys, looking up a table string in the built catalog
yields its string entry. -/
theorem strings_alookup (t : TranslationTable) (hnd : (t.map Prod.fst).Nodup)
    {p : String × TranslationRow} (hp : p ∈ t) :
    alookup p.1 (catalog t).strings = some (create_string_entry t p.1) := by
  rw [catalog_strings_eq t hnd]
  have h1 : alookup p.1 t = some p.2 := alookup_self_of_nodup hnd hp
  have h2 := alookup_map_value (fun k _ => create_string_entry t k) p.1 t
  rw [h1] at h2
  exact h2

/-- `dictInsert` keeps a predicate that holds of every stored value and of the
inserted value. -/
theorem dictInsert_values_pred {α : Type} (P : α → Prop)
    (d : List (String × α)) (k : String) (v : α) (hd : ∀ q ∈ d, P q.2)
    (hv : P v) : ∀ q ∈ dictInsert d k v, P q.2 := by
  intro q hq
  unfold dictInsert at hq
  by_cases hk : k ∈ d.map Prod.fst
  · rw [if_pos hk] at hq
    obtain ⟨r, hr, hrq⟩ := List.mem_map.mp hq
    by_cases hrk : r.1 = k
    · rw [if_pos hrk] at hrq
      subst hrq
      exact hv
    · rw [if_neg hrk] at hrq
      subst hrq
      exact hd r hr
  · rw [if_neg hk] at hq
    rcases List.mem_append.mp hq with h | h
    · exact hd q h
    · rcases List.mem_singleton.mp h with rfl
      exact hv

/-- A fold of dict assignments keeps a predicate holding of every accumulator
value when every assigned value satisfies it. -/
theorem foldl_dictInsert_values_pred {α β : Type} (P : α → Prop)
    (f : String → β → α) :
    ∀ (row : List (String × β)) (acc : List (String × α)),
      (∀ q ∈ acc, P q.2) → (∀ l v, P (f l v)) →
      ∀ q ∈ row.foldl (fun d r => dictInsert d r.1 (f r.1 r.2)) acc, P q.2 := by
  intro row
  induction row with
  | nil => intro acc hacc _ q hq; exact hacc q hq
  | cons r rest ih =>
    intro acc hacc hf q hq
    rw [List.foldl_cons] at hq
    exact ih _ (dictInsert_values_pred P acc r.1 (f r.1 r.2) hacc (hf r.1 r.2))
      hf q hq

/-- Every localization unit of a built string entry has state "translated". -/
theorem create_string_entry_states (t : TranslationTable) (S : String) :
    ∀ q ∈ (create_string_entry t S).localizations,
      q.2.stringUnit.state = "translated" := by
  intro q hq
  unfold create_string_entry at hq
  cases hrow : alookup S t with
  | none =>
    rw [hrow] at hq
    rcases List.mem_singleton.mp hq with rfl
    rfl
  | some row =>
    rw [hrow] at hq
    exact foldl_dictInsert_values_pred
      (fun e => e.stringUnit.state = "translated") create_localization_entry
      row _
      (by
        intro q' hq'
        rcases List.mem_singleton.mp hq' with rfl
        rfl)
      (fun _ _ => rfl) q hq

/-- Re-deriving a row from a built entry recovers the row, provided the row
has distinct language codes and does not contain "en". -/
theorem derive_entry_eq (t : TranslationTable) (p : String × TranslationRow)
    (hrow : alookup p.1 t = some p.2) (hnd2 : (p.2.map Prod.fst).Nodup)
    (hen : "en" ∉ p.2.map Prod.fst) :
    ((create_string_entry t p.1).localizations.filter fun q => q.1 != "en").map
        (fun q => (q.1, q.2.stringUnit.value)) = p.2 := by
  rw [localizations_eq t p.1 p.2 hrow hnd2 hen]
  rw [List.filter_cons]
  have hhead : (("en", create_localization_entry "en" p.1).1 != "en") = false := by
    simp
  rw [hhead]
  simp only [Bool.false_eq_true, if_false]
  have hkeep :
      (p.2.map fun q => (q.1, create_localization_entry q.1 q.2)).filter
          (fun q => q.1 != "en") =
        p.2.map fun q => (q.1, create_localization_entry q.1 q.2) := by
    apply List.filter_eq_self.mpr
    intro r hr
    obtain ⟨s, hs, hsr⟩ := List.mem_map.mp hr
    subst hsr
    have : s.1 ≠ "en" := by
      intro he
      exact hen (he ▸ List.mem_map_of_mem Prod.fst hs)
    simpa using this
  rw [hkeep, List.map_map]
  have : ∀ s ∈ p.2,
      ((fun q : String × LocalizationEntry => (q.1, q.2.stringUnit.value)) ∘
        fun q : String × String => (q.1, create_localization_entry q.1 q.2)) s
        = s := by
    intro s _
    rfl
  rw [List.map_congr_left this]
  simp

/-- The table literal has pairwise-distinct source strings. -/
theorem translations_keys_nodup : (translations.map Prod.fst).Nodup := by
  decide

/-- Every row of the table literal has pairwise-distinct language codes and
does not contain the source-language code "en". -/
theorem translations_rows_ok :
    ∀ p ∈ translations,
      (p.2.map Prod.fst).Nodup ∧ "en" ∉ p.2.map Prod.fst := by
  decide

/-! The claims. -/

/-- C1: for every source string S of the Translation Table, the generated
catalog's strings entry for S contains an "en" localization unit whose
stringUnit value equals S itself, unmodified. -/
theorem c1_source_language_maps_to_itself :
    ∀ p ∈ translations,
      ((alookup p.1 (catalog translations).strings).bind fun e =>
          Option.map (fun u => u.stringUnit.value)
            (alookup "en" e.localizations))
        = some p.1 := by
  intro p hp
  obtain ⟨hnd2, hen⟩ := translations_rows_ok p hp
  have hrow : alookup p.1 translations = some p.2 :=
    alookup_self_of_nodup translations_keys_nodup hp
  rw [strings_alookup translations translations_keys_nodup hp]
  simp only [Option.some_bind]
  rw [localizations_eq translations p.1 p.2 hrow hnd2 hen]
  simp [alookup, create_localization_entry]

/-- Witness for C1 at the table's first source string. -/
theorem c1_witness :
    ((alookup "Cancel" (catalog translations).strings).bind fun e =>
        Option.map (fun u => u.stringUnit.value)
          (alookup "en" e.localizations))
      = some "Cancel" :=
  c1_source_language_maps_to_itself
    ("Cancel",
      [("de", "Abbrechen"), ("es", "Cancelar"), ("fr", "Annuler"),
       ("zh-Hans", "取消"), ("pt", "Cancelar"), ("ja", "キャンセル"),
       ("ru", "Отменить"), ("ko", "취소"), ("it", "Annulla")])
    (by decide)

/-- C2: for every source string S and language code L of S's row in the
Translation Table, the generated catalog's entry for S has an L localization
unit whose stringUnit value is the row's translation and whose state is
"translated". -/
theorem c2_row_translations_emitted :
    ∀ p ∈ translations, ∀ q ∈ p.2,
      ((alookup p.1 (catalog translations).strings).bind fun e =>
          alookup q.1 e.localizations)
        = some { stringUnit := { state := "translated", value := q.2 } } := by
  intro p hp q hq
  obtain ⟨hnd2, hen⟩ := translations_rows_ok p hp
  have hrow : alookup p.1 translations = some p.2 :=
    alookup_self_of_nodup translations_keys_nodup hp
  rw [strings_alookup translations translations_keys_nodup hp]
  simp only [Option.some_bind]
  rw [localizations_eq translations p.1 p.2 hrow hnd2 hen]
  have hqne : ("en" : String) ≠ q.1 := by
    intro he
    exact hen (he ▸ List.mem_map_of_mem Prod.fst hq)
  rw [alookup, if_neg hqne,
    alookup_map_value create_localization_entry q.1 p.2,
    alookup_self_of_nodup hnd2 hq]
  rfl

/-- Witness for C2 at the table's first source string and language. -/
theorem c2_witness :
    ((alookup "Cancel" (catalog translations).strings).bind fun e =>
        alookup "de" e.localizations)
      = some { stringUnit := { state := "translated", value := "Abbrechen" } } :=
  c2_row_translations_emitted
    ("Cancel",
      [("de", "Abbrechen"), ("es", "Cancelar"), ("fr", "Annuler"),
       ("zh-Hans", "取消"), ("pt", "Cancelar"), ("ja", "キャンセル"),
       ("ru", "Отменить"), ("ko", "취소"), ("it", "Annulla")])
    (by decide) ("de", "Abbrechen") (by decide)

/-- C3: for every source string S of the Translation Table, the language
codes of the generated entry's localizations are exactly "en" followed by the
codes of S's row, in row order — as a set, exactly "en" together with the
row's codes, none extra and none missing.  (Every emitted string of this
program has a table row; `localizations_eq_none` covers the no-row shape.) -/
theorem c3_language_code_set :
    ∀ p ∈ translations,
      (alookup p.1 (catalog translations).strings).map
          (fun e => e.localizations.map Prod.fst)
        = some ("en" :: p.2.map Prod.fst) := by
  intro p hp
  obtain ⟨hnd2, hen⟩ := translations_rows_ok p hp
  have hrow : alookup p.1 translations = some p.2 :=
    alookup_self_of_nodup translations_keys_nodup hp
  rw [strings_alookup translations translations_keys_nodup hp]
  simp only [Option.map_some']
  rw [localizations_eq translations p.1 p.2 hrow hnd2 hen]
  simp [List.map_map]

/-- Witness for C3 at the table's first source string. -/
theorem c3_witness :
    (alookup "Cancel" (catalog translations).strings).map
        (fun e => e.localizations.map Prod.fst)
      = some ["en", "de", "es", "fr", "zh-Hans", "pt", "ja", "ru", "ko", "it"] :=
  c3_language_code_set
    ("Cancel",
      [("de", "Abbrechen"), ("es", "Cancelar"), ("fr", "Annuler"),
       ("zh-Hans", "取消"), ("pt", "Cancelar"), ("ja", "キャンセル"),
       ("ru", "Отменить"), ("ko", "취소"), ("it", "Annulla")])
    (by decide)

/-- C4: for every Translation Table (distinct keys, as any Python dict has),
the strings mapping of the generated catalog has exactly as many entries as
the table has keys: one entry per source string, none dropped, none
duplicated. -/
theorem c4_one_entry_per_source_string (t : TranslationTable)
    (hnd : (t.map Prod.fst).Nodup) :
    (catalog t).strings.length = t.length := by
  rw [catalog_strings_eq t hnd, List.length_map]

/-- Witness for C4 at the table literal. -/
theorem c4_witness : (catalog translations).strings.length = translations.length :=
  c4_one_entry_per_source_string translations translations_keys_nodup

/-- C5 counterexample: the round-trip fails on a table whose row itself
contains "en"; the builder overwrites the source-language unit and the
re-derivation then drops that row entry. -/
theorem c5_counterexample : deriveTable (catalog enRowTable) ≠ enRowTable := by
  decide

/-- C5 (amended): for every Translation Table with distinct keys and per-row
distinct language codes (as any Python dict of dicts has) whose rows do not
contain the source-language code "en", parsing the emitted document and
re-deriving a table — dropping each entry's "en" unit and keeping each
remaining code's stringUnit value — reconstructs the table exactly.  The
document is modelled by its in-memory value, which `renderCatalog` serializes
faithfully. -/
theorem c5_roundtrip (t : TranslationTable) (hnd : (t.map Prod.fst).Nodup)
    (hrows : ∀ p ∈ t, (p.2.map Prod.fst).Nodup ∧ "en" ∉ p.2.map Prod.fst) :
    deriveTable (catalog t) = t := by
  unfold deriveTable
  rw [catalog_strings_eq t hnd, List.map_map]
  have hptwise : ∀ p ∈ t,
      ((fun p : String × StringEntry =>
          (p.1,
            (p.2.localizations.filter fun q => q.1 != "en").map
              fun q => (q.1, q.2.stringUnit.value))) ∘
        fun p : String × TranslationRow =>
          (p.1, create_string_entry t p.1)) p = p := by
    intro p hp
    obtain ⟨hnd2, hen⟩ := hrows p hp
    have hrow : alookup p.1 t = some p.2 :=
      alookup_self_of_nodup hnd hp
    have := derive_entry_eq t p hrow hnd2 hen
    simp only [Function.comp_apply]
    rw [this]
  rw [List.map_congr_left hptwise]
  simp

/-- Witness for C5 (amended) at the spec's concrete scenario table. -/
theorem c5_witness : deriveTable (catalog sampleTable) = sampleTable :=
  c5_roundtrip sampleTable (by decide) (by decide)

/-- C6: the generator is deterministic as a function of the table: two runs
on the same unchanged Translation Table emit byte-identical serialized output
(`generate` models the full run, json.dump formatting included, so equal
outputs are equal byte for byte, same entry order and same formatting). -/
theorem c6_deterministic (t1 t2 : TranslationTable) (h : t1 = t2) :
    generate t1 = generate t2 := by
  rw [h]

/-- Witness for C6: two runs on the scenario table agree. -/
theorem c6_witness : generate sampleTable = generate sampleTable :=
  c6_deterministic sampleTable sampleTable rfl

/-- C7: the entries of the generated strings mapping appear in the iteration
order of the Translation Table (for a table with distinct keys, as any dict
literal): the key sequence of the output equals the key sequence of the
table. -/
theorem c7_iteration_order (t : TranslationTable)
    (hnd : (t.map Prod.fst).Nodup) :
    (catalog t).strings.map Prod.fst = t.map Prod.fst := by
  rw [catalog_strings_eq t hnd, List.map_map]
  rfl

/-- Witness for C7 at the table literal. -/
theorem c7_witness :
    (catalog translations).strings.map Prod.fst = translations.map Prod.fst :=
  c7_iteration_order translations translations_keys_nodup

/-- C8: if a source string's row itself contains the language code "en", the
builder's dict assignment overwrites the source-language unit: the emitted
"en" value for that string is the row's "en" value (rather than the source
string itself whenever the two differ). -/
theorem c8_en_overwritten_by_row (t : TranslationTable)
    (p : String × TranslationRow) (v : String)
    (hnd : (t.map Prod.fst).Nodup) (hp : p ∈ t)
    (hrownd : (p.2.map Prod.fst).Nodup) (hen : alookup "en" p.2 = some v) :
    ((alookup p.1 (catalog t).strings).bind fun e =>
        Option.map (fun u => u.stringUnit.value)
          (alookup "en" e.localizations))
      = some v := by
  rw [strings_alookup t hnd hp]
  simp only [Option.some_bind]
  have hrow : alookup p.1 t = some p.2 :=
    alookup_self_of_nodup hnd hp
  unfold create_string_entry
  simp only [hrow]
  rw [foldl_dictInsert_map create_localization_entry p.2 _]
  have hmem : alookup "en"
      (p.2.map fun q => (q.1, create_localization_entry q.1 q.2))
      = some (create_localization_entry "en" v) := by
    rw [alookup_map_value create_localization_entry "en" p.2, hen]
    rfl
  rw [alookup_foldl_dictInsert_of_mem _ _ "en"
    (create_localization_entry "en" v) (by simpa using hrownd) hmem]
  rfl

/-- Witness for C8: the "en" row value "Bonjour" replaces the source string
"Hello" in the emitted document. -/
theorem c8_witness :
    ((alookup "Hello" (catalog enRowTable).strings).bind fun e =>
        Option.map (fun u => u.stringUnit.value)
          (alookup "en" e.localizations))
      = some "Bonjour" :=
  c8_en_overwritten_by_row enRowTable ("Hello", [("en", "Bonjour")]) "Bonjour"
    (by decide) (by decide) (by decide) (by decide)

/-- C9: every localization unit anywhere in the generated catalog, the "en"
unit of every entry included, has translation state "translated"; no other
state value occurs, for any Translation Table. -/
theorem c9_all_states_translated (t : TranslationTable) :
    ∀ p ∈ (catalog t).strings, ∀ q ∈ p.2.localizations,
      q.2.stringUnit.state = "translated" := by
  intro p hp
  have hp0 : p ∈ (t.map Prod.fst).foldl
      (fun d k => dictInsert d k (create_string_entry t k)) [] := hp
  rw [foldl_keys_map (fun k => create_string_entry t k) t []] at hp0
  exact foldl_dictInsert_values_pred
    (fun e => ∀ q ∈ e.localizations, q.2.stringUnit.state = "translated")
    (fun k _ => create_string_entry t k) t []
    (by intro q hq; cases hq)
    (fun l _ => create_string_entry_states t l) p hp0

/-- Witness for C9 at a concrete entry and unit of the scenario table. -/
theorem c9_witness :
    ({ stringUnit := { state := "translated", value := "Abbrechen" } } :
        LocalizationEntry).stringUnit.state = "translated" :=
  c9_all_states_translated sampleTable
    ("Cancel", create_string_entry sampleTable "Cancel") (by decide)
    ("de", { stringUnit := { state := "translated", value := "Abbrechen" } })
    (by decide)

/-- C10: for every Translation Table, the generated document's top level has
exactly the fields sourceLanguage, strings and version (the `Catalog`
structure consists of exactly these three fields), with sourceLanguage the
fixed source-language code "en" and version the fixed literal "1.0". -/
theorem c10_top_level_fields (t : TranslationTable) :
    (catalog t).sourceLanguage = "en" ∧ (catalog t).version = "1.0" :=
  ⟨rfl, rfl⟩

end GenerateTranslations
